import Mathlib

/-!
Shallow embedding of the sport-club receptionist backend
(`src/backend/src/app/routes/booking.py`, `src/backend/src/app/routes/vapi.py`,
`src/backend/src/app/services/notification_service.py` and the SQLAlchemy
models they use), together with theorems settling the claims about the
booking-conflict logic, the booking state transitions and the VAPI webhook
handlers.

Modelling conventions:
* The relational store is a record of lists (`DB`); `db.commit()` on a
  mutated row is modelled by replacing the first matching row of the list
  (`updateFirst`), matching SQLAlchemy `query(...).first()` + in-place
  mutation.  UUID primary keys are modelled as `Nat`, allocated from a
  `next_id` counter (uuid4 randomness is irrelevant to the claims).
* `datetime` values are modelled as `Int` "minutes": a parsed calendar date
  contributes `((year * 13 + month) * 32 + day) * 1440` minutes (an
  order-preserving, injective rendering of dates; real month lengths do not
  matter to any claim) and a time of day contributes `hour * 60 + minute`.
  `timedelta(hours=1)` is `+ 60`.
* Wall-clock reads (`datetime.utcnow()` / `datetime.now()`) are passed in as
  an explicit `now : Int` parameter; the strftime rendering inside the
  phone-booking confirmation code is abstracted to `toString now`.
* The Twilio collaborator (`NotificationService.send_sms`) is modelled by an
  input `sms_error : Option String`: `none` means the provider accepted the
  message, `some e` means `messages.create` raised with text `e` (the code
  catches that exception and returns `success=False, error=str(e)`).
* Fallible Python steps are explicit: a `KeyError`/`AttributeError`/
  `ValueError` escaping a handler is a `PyExn` value; FastAPI turns an
  uncaught exception into an HTTP 500 response.
* `float` columns (`call_cost`, `price`) only pass through the handlers, so
  they are modelled as `Int` passthrough values.
-/

namespace SportClub

/-! ## Data model (`app/models`) -/

/-- `BookingStatus` enum from `app/models/booking.py`. -/
inductive BookingStatus where
  | pending
  | confirmed
  | completed
  | cancelled
  | no_show
deriving DecidableEq, Repr

/-- `BookingType` enum from `app/models/booking.py`. -/
inductive BookingType where
  | court
  | coaching
  | trial
  | event
  | other
deriving DecidableEq, Repr

/-- The columns of the `bookings` table that the booking routes and the
webhook handlers read or write (`app/models/booking.py`).  `resource_name`
is modelled as always present (the conflict checker's `resource_name: str`
contract); `price` is a float passthrough modelled as `Int`. -/
structure Booking where
  id : Nat
  club_id : Nat
  customer_id : Nat
  conversation_id : Option Nat
  booking_type : BookingType
  status : BookingStatus
  resource_name : String
  description : Option String
  booking_date : Int
  start_time : Int
  end_time : Int
  duration_minutes : Option Int
  price : Option Int
  currency : String
  payment_status : Option String
  contact_name : String
  contact_phone : String
  contact_email : Option String
  notes : Option String
  special_requests : Option String
  matchi_booking_id : Option String
  confirmation_code : String
  confirmation_sent_at : Option Int
  cancellation_reason : Option String
  cancelled_at : Option Int
  cancelled_by : Option String
deriving DecidableEq, Repr

/-! ## Resource conflict checker (`app/routes/booking.py`, `check_double_booking`) -/

/-- `active_statuses` from `check_double_booking`: only pending and confirmed
bookings occupy a slot. -/
def active_statuses : List BookingStatus :=
  [BookingStatus.pending, BookingStatus.confirmed]

/-- Embedding of `check_double_booking` (booking.py lines 29-60): the
SQLAlchemy filter chain becomes a Boolean predicate over the bookings table,
and `query.first() is not None` becomes `List.any`.  `exclude_booking_id` is
only applied when present (`if exclude_booking_id:`). -/
def check_double_booking (bookings : List Booking) (club_id : Nat)
    (resource_name : String) (start_time end_time : Int)
    (exclude_booking_id : Option Nat) : Bool :=
  bookings.any (fun b =>
    b.club_id == club_id &&
    b.resource_name == resource_name &&
    active_statuses.contains b.status &&
    decide (b.start_time < end_time) &&
    decide (b.end_time > start_time) &&
    (match exclude_booking_id with
     | none => true
     | some ex => b.id != ex))

/-- A booking status passes the `status.in_(active_statuses)` filter iff it is
pending or confirmed. -/
theorem status_active_iff (s : BookingStatus) :
    (active_statuses.contains s = true) ↔
      (s = BookingStatus.pending ∨ s = BookingStatus.confirmed) := by
  cases s <;> decide

/-- Claim C2: `check_double_booking` returns true iff some booking of the same
club and exactly-equal resource name is in status pending or confirmed, has an
id different from the excluded one (when an exclusion is given), and satisfies
the half-open overlap test `existing.start < end ∧ existing.end > start`; in
particular cancelled / completed / no_show bookings never make it return
true. -/
theorem check_double_booking_iff (bookings : List Booking) (club_id : Nat)
    (resource_name : String) (start_time end_time : Int)
    (exclude_booking_id : Option Nat) :
    check_double_booking bookings club_id resource_name start_time end_time
        exclude_booking_id = true ↔
      ∃ b ∈ bookings,
        b.club_id = club_id ∧
        b.resource_name = resource_name ∧
        (b.status = BookingStatus.pending ∨ b.status = BookingStatus.confirmed) ∧
        (∀ ex, exclude_booking_id = some ex → b.id ≠ ex) ∧
        b.start_time < end_time ∧
        b.end_time > start_time := by
  cases exclude_booking_id with
  | none =>
    simp only [check_double_booking, List.any_eq_true, Bool.and_eq_true, beq_iff_eq,
      decide_eq_true_eq, status_active_iff, Bool.and_true, gt_iff_lt]
    constructor
    · rintro ⟨b, hb, ⟨⟨⟨h1, h2⟩, h3⟩, h4⟩, h5⟩
      exact ⟨b, hb, h1, h2, h3, fun ex h => Option.noConfusion h, h4, h5⟩
    · rintro ⟨b, hb, h1, h2, h3, hex, h4, h5⟩
      exact ⟨b, hb, ⟨⟨⟨h1, h2⟩, h3⟩, h4⟩, h5⟩
  | some ex =>
    simp only [check_double_booking, List.any_eq_true, Bool.and_eq_true, beq_iff_eq,
      decide_eq_true_eq, status_active_iff, bne_iff_ne, ne_eq, gt_iff_lt]
    constructor
    · rintro ⟨b, hb, ⟨⟨⟨⟨h1, h2⟩, h3⟩, h4⟩, h5⟩, h6⟩
      refine ⟨b, hb, h1, h2, h3, ?_, h4, h5⟩
      intro ex2 h2
      cases h2
      exact h6
    · rintro ⟨b, hb, h1, h2, h3, hex, h4, h5⟩
      exact ⟨b, hb, ⟨⟨⟨⟨h1, h2⟩, h3⟩, h4⟩, h5⟩, hex ex rfl⟩

/-! ## Remaining data model (`app/models`) -/

/-- `ConversationStatus` enum from `app/models/conversation.py`. -/
inductive ConversationStatus where
  | active
  | completed
  | escalated
  | abandoned
deriving DecidableEq, Repr

/-- `MessageRole` enum from `app/models/conversation.py`. -/
inductive MessageRole where
  | customer
  | assistant
  | system
deriving DecidableEq, Repr

/-- `CustomerStatus` enum from `app/models/customer.py`. -/
inductive CustomerStatus where
  | lead
  | interested
  | trial
  | member
  | inactive
deriving DecidableEq, Repr

/-- Columns of the `customers` table used by the webhook handlers
(`app/models/customer.py`). -/
structure Customer where
  id : Nat
  club_id : Nat
  name : String
  phone : String
  email : Option String
  source : Option String
  status : CustomerStatus
  interested_in : Option String
  notes : Option String
  last_contact_date : Option Int
deriving DecidableEq, Repr

/-- Columns of the `conversations` table used by the webhook handlers
(`app/models/conversation.py`).  `call_cost` is a float passthrough, modelled
as `Int`. -/
structure Conversation where
  id : Nat
  club_id : Nat
  customer_id : Nat
  vapi_call_id : Option String
  vapi_assistant_id : Option String
  phone_number : Option String
  status : ConversationStatus
  started_at : Int
  ended_at : Option Int
  call_duration : Option Int
  call_cost : Option Int
  outcome : Option String
  escalated_to_manager : Bool
deriving DecidableEq, Repr

/-- One row of the club's `membership_types` JSON list, as read by
`get_membership_info` (keys `name`, `price`, `currency`, `period`; the price
is rendered into an f-string, so it is kept as a string). -/
structure MembershipType where
  name : String
  price : String
  currency : String
  period : String
deriving DecidableEq, Repr

/-- Columns of the `clubs` table used by the webhook handlers and the
notification service (`app/models/club.py`). -/
structure Club where
  id : Nat
  name : String
  ai_assistant_id : Option String
  manager_name : Option String
  manager_phone : Option String
  matchi_booking_url : Option String
  membership_types : List MembershipType
  is_active : Bool
deriving DecidableEq, Repr

/-- `NotificationType` enum from `app/models/notification.py` (the variants
the embedded services create). -/
inductive NotificationType where
  | escalation
  | booking_confirmation
  | booking_reminder
  | lead_alert
deriving DecidableEq, Repr

/-- `NotificationStatus` enum from `app/models/notification.py`. -/
inductive NotificationStatus where
  | pending
  | sent
  | delivered
  | failed
  | bounced
deriving DecidableEq, Repr

/-- `NotificationChannel` enum from `app/models/notification.py`. -/
inductive NotificationChannel where
  | sms
  | email
  | webhook
  | push
deriving DecidableEq, Repr

/-- Columns of the `notifications` table written by `NotificationService`
(`app/models/notification.py`). -/
structure Notification where
  club_id : Nat
  customer_id : Option Nat
  booking_id : Option Nat
  conversation_id : Option Nat
  notification_type : NotificationType
  channel : NotificationChannel
  status : NotificationStatus
  recipient_name : Option String
  recipient_phone : Option String
  message : String
  provider : String
  sent_at : Option Int
  error_message : Option String
  priority : Option String
deriving DecidableEq, Repr

/-- Columns of the `messages` table written by `handle_message`
(`app/models/conversation.py`, class `Message`). -/
structure ConvMessage where
  conversation_id : Nat
  role : MessageRole
  content : String
  vapi_message_id : Option String
  timestamp : Int
deriving DecidableEq, Repr

/-- The relational store: one list per table plus a counter standing in for
uuid4 primary-key generation. -/
structure DB where
  clubs : List Club
  customers : List Customer
  conversations : List Conversation
  bookings : List Booking
  notifications : List Notification
  messages : List ConvMessage
  next_id : Nat
deriving DecidableEq, Repr

/-- SQLAlchemy `query(...).first()` followed by in-place mutation and
`commit()` touches exactly the first row matching the filter; `updateFirst`
is that write pattern on a list-modelled table. -/
def updateFirst (q : α → Bool) (f : α → α) : List α → List α
  | [] => []
  | x :: xs => if q x then f x :: xs else x :: updateFirst q f xs

theorem updateFirst_of_find?_eq_none (q : α → Bool) (f : α → α) (l : List α)
    (h : l.find? q = none) : updateFirst q f l = l := by
  induction l with
  | nil => rfl
  | cons x xs ih =>
    rw [List.find?_cons] at h
    by_cases hx : q x
    · simp [hx] at h
    · simp only [updateFirst, if_neg hx]
      rw [ih (by simpa [hx] using h)]

theorem find?_updateFirst (q : α → Bool) (f : α → α) (l : List α) (x : α)
    (h : l.find? q = some x) (hfx : q (f x) = true) :
    (updateFirst q f l).find? q = some (f x) := by
  induction l with
  | nil => simp at h
  | cons a as ih =>
    rw [List.find?_cons] at h
    by_cases ha : q a
    · simp only [ha, if_pos] at h
      cases h
      simp [updateFirst, ha, List.find?_cons, hfx]
    · simp only [ha, Bool.false_eq_true, if_neg, if_false] at h
      simp [updateFirst, ha, List.find?_cons, ih h]

theorem mem_updateFirst_of_find? (q : α → Bool) (f : α → α) (l : List α) (x : α)
    (h : l.find? q = some x) : f x ∈ updateFirst q f l := by
  induction l with
  | nil => simp at h
  | cons a as ih =>
    rw [List.find?_cons] at h
    by_cases ha : q a
    · simp only [ha, if_pos] at h
      cases h
      simp [updateFirst, ha]
    · simp only [ha, Bool.false_eq_true, if_neg, if_false] at h
      simp [updateFirst, ha, ih h]

/-! ## Python-level failure modes -/

/-- An exception escaping a handler.  FastAPI converts an uncaught exception
into an HTTP 500 response. -/
inductive PyExn where
  | attributeError
  | keyError (key : String)
  | valueError (msg : String)
deriving DecidableEq, Repr

/-- Outcome of a direct-API route: a 2xx payload or an `HTTPException`. -/
inductive ApiResult (α : Type) where
  | ok (a : α)
  | httpError (status_code : Nat) (detail : String)
deriving DecidableEq, Repr

/-! ## Notification service (`app/services/notification_service.py`) -/

/-- Normalised result of `NotificationService.send_sms` (the fields the
callers read). -/
structure SendResult where
  success : Bool
  error : Option String
deriving DecidableEq, Repr

/-- `send_sms`: the Twilio call either succeeds or raises; the exception is
caught and reported as `success=False, error=str(e)`.  The provider outcome
is the input `sms_error`. -/
def send_sms (to_phone message : String) (sms_error : Option String) : SendResult :=
  match to_phone, message, sms_error with
  | _, _, none => { success := true, error := none }
  | _, _, some e => { success := false, error := some e }

/-- Body of the escalation SMS (`send_escalation_to_manager`); the f-string's
whitespace and emoji are abstracted, the interpolated fields are kept. -/
def escalation_message (club_name customer_name customer_phone question : String) :
    String :=
  "ESCALATION - " ++ club_name ++ " Customer: " ++ customer_name ++
    " Phone: " ++ customer_phone ++ " Question: " ++ question ++
    " Please follow up with this customer."

/-- Embedding of `NotificationService.send_escalation_to_manager`
(notification_service.py lines 62-122): missing club or missing/empty manager
phone returns a failure without logging a Notification row; otherwise the SMS
is attempted and a Notification row of type escalation is always logged, with
status sent/failed by delivery outcome. -/
def send_escalation_to_manager (db : DB) (club_id : Nat)
    (customer_name customer_phone question : String)
    (conversation_id : Option Nat) (sms_error : Option String) (now : Int) :
    SendResult × DB :=
  match db.clubs.find? (fun c => c.id == club_id) with
  | none => ({ success := false, error := some "No manager phone number configured" }, db)
  | some club =>
    match club.manager_phone with
    | none => ({ success := false, error := some "No manager phone number configured" }, db)
    | some mp =>
      if mp == "" then
        ({ success := false, error := some "No manager phone number configured" }, db)
      else
        let message := escalation_message club.name customer_name customer_phone question
        let result := send_sms mp message sms_error
        let notification : Notification := {
          club_id := club_id
          customer_id := none
          booking_id := none
          conversation_id := conversation_id
          notification_type := NotificationType.escalation
          channel := NotificationChannel.sms
          status := if result.success then NotificationStatus.sent else NotificationStatus.failed
          recipient_name := club.manager_name
          recipient_phone := some mp
          message := message
          provider := "twilio"
          sent_at := if result.success then some now else none
          error_message := result.error
          priority := some "high" }
        (result, { db with notifications := db.notifications ++ [notification] })

/-- Body of the booking-confirmation SMS (`send_booking_confirmation`);
strftime rendering of the timestamps is abstracted to `toString`. -/
def booking_confirmation_message (club_name : String) (b : Booking) : String :=
  "Booking Confirmed - " ++ club_name ++ " Date: " ++ toString b.booking_date ++
    " Time: " ++ toString b.start_time ++ " - " ++ toString b.end_time ++
    " Resource: " ++ b.resource_name ++ " Confirmation: " ++ b.confirmation_code ++
    " Thank you for booking with us!"

/-- Embedding of `NotificationService.send_booking_confirmation`
(notification_service.py lines 124-174).  When the booking's club does not
exist, `club.name` dereferences `None` and the method raises
(`AttributeError`); otherwise the SMS is attempted and a Notification row is
logged with status by delivery outcome. -/
def send_booking_confirmation (db : DB) (booking_id : Nat)
    (sms_error : Option String) (now : Int) : (Except PyExn SendResult) × DB :=
  match db.bookings.find? (fun b => b.id == booking_id) with
  | none => (Except.ok { success := false, error := some "Booking not found" }, db)
  | some booking =>
    match db.clubs.find? (fun c => c.id == booking.club_id) with
    | none => (Except.error PyExn.attributeError, db)
    | some club =>
      let message := booking_confirmation_message club.name booking
      let result := send_sms booking.contact_phone message sms_error
      let notification : Notification := {
        club_id := booking.club_id
        customer_id := some booking.customer_id
        booking_id := some booking_id
        conversation_id := booking.conversation_id
        notification_type := NotificationType.booking_confirmation
        channel := NotificationChannel.sms
        status := if result.success then NotificationStatus.sent else NotificationStatus.failed
        recipient_name := some booking.contact_name
        recipient_phone := some booking.contact_phone
        message := message
        provider := "twilio"
        sent_at := if result.success then some now else none
        error_message := result.error
        priority := none }
      (Except.ok result, { db with notifications := db.notifications ++ [notification] })

/-! ## Booking routes (`app/routes/booking.py`) -/

/-- Fields of the `BookingCreate` request schema (`app/schemas/booking.py`);
`resource_name` kept non-optional as in the conflict checker's contract. -/
structure BookingCreate where
  club_id : Nat
  customer_id : Nat
  conversation_id : Option Nat
  booking_type : BookingType
  status : BookingStatus
  resource_name : String
  description : Option String
  booking_date : Int
  start_time : Int
  end_time : Int
  duration_minutes : Option Int
  price : Option Int
  currency : String
  payment_status : Option String
  contact_name : String
  contact_phone : String
  contact_email : Option String
  notes : Option String
  special_requests : Option String
deriving DecidableEq, Repr

/-- `Booking(**booking_data.model_dump(), confirmation_code=...)` with a fresh
primary key. -/
def BookingCreate.toBooking (d : BookingCreate) (id : Nat)
    (confirmation_code : String) : Booking :=
  { id := id
    club_id := d.club_id
    customer_id := d.customer_id
    conversation_id := d.conversation_id
    booking_type := d.booking_type
    status := d.status
    resource_name := d.resource_name
    description := d.description
    booking_date := d.booking_date
    start_time := d.start_time
    end_time := d.end_time
    duration_minutes := d.duration_minutes
    price := d.price
    currency := d.currency
    payment_status := d.payment_status
    contact_name := d.contact_name
    contact_phone := d.contact_phone
    contact_email := d.contact_email
    notes := d.notes
    special_requests := d.special_requests
    matchi_booking_id := none
    confirmation_code := confirmation_code
    confirmation_sent_at := none
    cancellation_reason := none
    cancelled_at := none
    cancelled_by := none }

/-- Embedding of the direct booking-create route (`create_booking`,
booking.py lines 63-101): conflict gate, insert, then optional confirmation
SMS when the stored status is confirmed.  `secrets.token_hex(4).upper()` is
the input `confirmation_code`. -/
def create_booking (db : DB) (booking_data : BookingCreate)
    (send_confirmation : Bool) (confirmation_code : String)
    (sms_error : Option String) (now : Int) :
    (Except PyExn (ApiResult Booking)) × DB :=
  if check_double_booking db.bookings booking_data.club_id
      booking_data.resource_name booking_data.start_time booking_data.end_time
      none then
    (Except.ok (ApiResult.httpError 409 ("\x27" ++ booking_data.resource_name ++
      "\x27 is already booked for the requested time slot")), db)
  else
    let booking := booking_data.toBooking db.next_id confirmation_code
    let db1 := { db with bookings := db.bookings ++ [booking],
                         next_id := db.next_id + 1 }
    if send_confirmation && booking.status == BookingStatus.confirmed then
      match send_booking_confirmation db1 booking.id sms_error now with
      | (Except.error e, db2) => (Except.error e, db2)
      | (Except.ok _, db2) =>
        (Except.ok (ApiResult.ok { booking with confirmation_sent_at := some now }),
         { db2 with bookings := (updateFirst (fun b => b.id == booking.id)
            (fun b => { b with confirmation_sent_at := some now }) db2.bookings) })
    else
      (Except.ok (ApiResult.ok booking), db1)

/-- Fields of the `BookingUpdate` request schema (`app/schemas/booking.py`);
`none` models a field absent from the request
(`model_dump(exclude_unset=True)`). -/
structure BookingUpdate where
  status : Option BookingStatus
  booking_type : Option BookingType
  resource_name : Option String
  description : Option String
  booking_date : Option Int
  start_time : Option Int
  end_time : Option Int
  duration_minutes : Option Int
  price : Option Int
  payment_status : Option String
  contact_name : Option String
  contact_phone : Option String
  contact_email : Option String
  notes : Option String
  special_requests : Option String
  matchi_booking_id : Option String
  cancellation_reason : Option String
deriving DecidableEq, Repr

/-- The `setattr` loop of `update_booking`: every supplied field overwrites
the stored row. -/
def BookingUpdate.apply (u : BookingUpdate) (b : Booking) : Booking :=
  { b with
    status := u.status.getD b.status
    booking_type := u.booking_type.getD b.booking_type
    resource_name := u.resource_name.getD b.resource_name
    description := (u.description.map some).getD b.description
    booking_date := u.booking_date.getD b.booking_date
    start_time := u.start_time.getD b.start_time
    end_time := u.end_time.getD b.end_time
    duration_minutes := (u.duration_minutes.map some).getD b.duration_minutes
    price := (u.price.map some).getD b.price
    payment_status := (u.payment_status.map some).getD b.payment_status
    contact_name := u.contact_name.getD b.contact_name
    contact_phone := u.contact_phone.getD b.contact_phone
    contact_email := (u.contact_email.map some).getD b.contact_email
    notes := (u.notes.map some).getD b.notes
    special_requests := (u.special_requests.map some).getD b.special_requests
    matchi_booking_id := (u.matchi_booking_id.map some).getD b.matchi_booking_id
    cancellation_reason := (u.cancellation_reason.map some).getD b.cancellation_reason }

/-- Embedding of `update_booking` (booking.py lines 158-199): 404 on a
missing id; the conflict checker (excluding the booking itself) re-runs only
when resource_name/start_time/end_time is being changed; every supplied
field, including `status`, is then applied with no transition check. -/
def update_booking (db : DB) (booking_id : Nat) (u : BookingUpdate) :
    ApiResult Booking × DB :=
  match db.bookings.find? (fun b => b.id == booking_id) with
  | none =>
    (ApiResult.httpError 404 ("Booking with ID " ++ toString booking_id ++ " not found"), db)
  | some booking =>
    let touches := u.resource_name.isSome || u.start_time.isSome || u.end_time.isSome
    let new_resource := u.resource_name.getD booking.resource_name
    let new_start := u.start_time.getD booking.start_time
    let new_end := u.end_time.getD booking.end_time
    if touches && check_double_booking db.bookings booking.club_id new_resource
        new_start new_end (some booking_id) then
      (ApiResult.httpError 409 ("\x27" ++ new_resource ++
        "\x27 is already booked for the requested time slot"), db)
    else
      (ApiResult.ok (u.apply booking),
       { db with bookings := updateFirst (fun b => b.id == booking_id) u.apply db.bookings })

/-- Embedding of `confirm_booking` (booking.py lines 202-224): 404 on a
missing id; otherwise the status is set to confirmed unconditionally, then
the confirmation SMS is optionally sent. -/
def confirm_booking (db : DB) (booking_id : Nat) (send_sms_flag : Bool)
    (sms_error : Option String) (now : Int) :
    (Except PyExn (ApiResult Booking)) × DB :=
  match db.bookings.find? (fun b => b.id == booking_id) with
  | none =>
    (Except.ok (ApiResult.httpError 404
      ("Booking with ID " ++ toString booking_id ++ " not found")), db)
  | some booking =>
    let confirmed := { booking with status := BookingStatus.confirmed }
    let db1 := { db with bookings := (updateFirst (fun b => b.id == booking_id)
      (fun b => { b with status := BookingStatus.confirmed }) db.bookings) }
    if send_sms_flag then
      match send_booking_confirmation db1 booking_id sms_error now with
      | (Except.error e, db2) => (Except.error e, db2)
      | (Except.ok _, db2) =>
        (Except.ok (ApiResult.ok { confirmed with confirmation_sent_at := some now }),
         { db2 with bookings := (updateFirst (fun b => b.id == booking_id)
            (fun b => { b with confirmation_sent_at := some now }) db2.bookings) })
    else
      (Except.ok (ApiResult.ok confirmed), db1)

/-- Embedding of `cancel_booking` (booking.py lines 227-246): 404 on a missing
id; otherwise the status is set to cancelled unconditionally and the
cancellation metadata is recorded. -/
def cancel_booking (db : DB) (booking_id : Nat) (reason : Option String)
    (now : Int) : ApiResult Booking × DB :=
  match db.bookings.find? (fun b => b.id == booking_id) with
  | none =>
    (ApiResult.httpError 404 ("Booking with ID " ++ toString booking_id ++ " not found"), db)
  | some booking =>
    let f := fun (b : Booking) =>
      { b with status := BookingStatus.cancelled
               cancellation_reason := reason
               cancelled_at := some now
               cancelled_by := some "system" }
    (ApiResult.ok (f booking),
     { db with bookings := updateFirst (fun b => b.id == booking_id) f db.bookings })

/-! ## Webhook payloads (`app/routes/vapi.py`, pydantic models)

`VAPIWebhookPayload` is the pydantic-validated shape; `.dict()` keeps
unset optional objects as `None`.  Inside `call`, `customer` is an arbitrary
optional dict: `none` models `"customer": null` / absent, `some c` a dict
whose `number` key may itself be absent. -/

/-- The `customer` sub-dict of `call` (only `number` is read). -/
structure CustomerInfo where
  number : Option String
deriving DecidableEq, Repr

/-- Pydantic `CallInfo`: `id` required, the rest optional.  `cost` is a float
passthrough modelled as `Int`. -/
structure CallInfo where
  id : String
  assistantId : Option String
  customer : Option CustomerInfo
  duration : Option Int
  cost : Option Int
  endedReason : Option String
deriving DecidableEq, Repr

/-- Pydantic `MessageInfo`: `role` and `content` required. -/
structure MessageInfo where
  role : String
  content : String
  id : Option String
deriving DecidableEq, Repr

/-- The `parameters` dict of a function call: each key the handlers read,
`none` modelling an absent key. -/
structure FnParams where
  customer_name : Option String
  customer_phone : Option String
  customer_email : Option String
  activity : Option String
  booking_date : Option String
  booking_time : Option String
  start_time : Option String
  end_time : Option String
  notes : Option String
  name : Option String
  email : Option String
  interested_in : Option String
  question : Option String
  date : Option String
  time : Option String
deriving DecidableEq, Repr

/-- `FnParams` with every key absent. -/
def FnParams.empty : FnParams :=
  { customer_name := none, customer_phone := none, customer_email := none,
    activity := none, booking_date := none, booking_time := none,
    start_time := none, end_time := none, notes := none, name := none,
    email := none, interested_in := none, question := none, date := none,
    time := none }

/-- Pydantic `FunctionCallInfo`: `name` and `parameters` required. -/
structure FunctionCallInfo where
  name : String
  parameters : FnParams
deriving DecidableEq, Repr

/-- Pydantic `VAPIWebhookPayload`: required `type`, optional event objects. -/
structure VAPIWebhookPayload where
  type : String
  call : Option CallInfo
  message : Option MessageInfo
  functionCall : Option FunctionCallInfo
deriving DecidableEq, Repr

/-! ## Python string/datetime helpers used by the function handlers -/

/-- Python truthiness of an optional string (`if not x:`): `None` and the
empty string are falsy. -/
def pyFalsy : Option String → Bool
  | none => true
  | some s => s == ""

/-- Rendering of an optional string into an f-string: `None` prints as
"None". -/
def pyStr : Option String → String
  | none => "None"
  | some s => s

/-- One character step of Python `str.title()` (ASCII): a letter is
uppercased when the previous character is not a letter, lowercased
otherwise. -/
def pyTitleChar (prevAlpha : Bool) (c : Char) : Char :=
  if c.isAlpha then (if prevAlpha then c.toLower else c.toUpper) else c

/-- Recursion for `pyTitle` over the character list. -/
def pyTitleAux : Bool → List Char → List Char
  | _, [] => []
  | prevAlpha, c :: cs => pyTitleChar prevAlpha c :: pyTitleAux c.isAlpha cs

/-- Python `str.title()` restricted to ASCII input. -/
def pyTitle (s : String) : String :=
  ⟨pyTitleAux false s.data⟩

/-- Structural single-separator split over the character list (Python
`str.split(sep)` for the one-character separators "-", ":" and "T" this
backend uses; `String.splitOn` itself does not reduce in the kernel). -/
def splitOnChar (sep : Char) : List Char → List (List Char)
  | [] => [[]]
  | c :: rest =>
    let r := splitOnChar sep rest
    if c == sep then [] :: r
    else
      match r with
      | [] => [[c]]
      | g :: gs => (c :: g) :: gs

/-- Decimal parse of a non-empty all-digit character group (structural
rendering of `int(...)` inside `fromisoformat`). -/
def digitsToNat? (cs : List Char) : Option Nat :=
  if cs.isEmpty then none
  else if cs.all (fun c => c.isDigit) then
    some (cs.foldl (fun n c => n * 10 + (c.toNat - 48)) 0)
  else none

/-- ASCII `str.lower()` (structural; `String.toLower` does not reduce in the
kernel). -/
def pyLower (s : String) : String :=
  ⟨s.data.map Char.toLower⟩

/-- Parse "YYYY-MM-DD" into a day index, as `datetime.fromisoformat` does for
a date-only string.  The day index `(year * 13 + month) * 32 + day` is an
injective, order-preserving rendering of valid dates; day-of-month validity
is approximated by `1..31`. -/
def parseDate (cs : List Char) : Option Int :=
  match splitOnChar (Char.ofNat 45) cs with
  | [y, mo, d] =>
    if y.length == 4 && mo.length == 2 && d.length == 2 then
      match digitsToNat? y, digitsToNat? mo, digitsToNat? d with
      | some yn, some mon, some dn =>
        if 1 ≤ mon && mon ≤ 12 && 1 ≤ dn && dn ≤ 31 then
          some (((yn * 13 + mon) * 32 + dn : Nat) : Int)
        else none
      | _, _, _ => none
    else none
  | _ => none

/-- Parse "HH:MM" into minutes of the day (the time shapes this backend
feeds to `fromisoformat`). -/
def parseTime (cs : List Char) : Option Int :=
  match splitOnChar (Char.ofNat 58) cs with
  | [h, m] =>
    if h.length == 2 && m.length == 2 then
      match digitsToNat? h, digitsToNat? m with
      | some hn, some mn =>
        if hn ≤ 23 && mn ≤ 59 then some ((hn * 60 + mn : Nat) : Int) else none
      | _, _ => none
    else none
  | _ => none

/-- `datetime.fromisoformat` on the strings this backend builds
("YYYY-MM-DD" or "YYYY-MM-DDTHH:MM"), as minutes.  An unparsable string is
`none` (the Python call raises `ValueError`). -/
def fromisoformat (s : String) : Option Int :=
  match splitOnChar (Char.ofNat 84) s.data with
  | [d] => (parseDate d).map (fun dd => dd * 1440)
  | [d, t] =>
    match parseDate d, parseTime t with
    | some dd, some tt => some (dd * 1440 + tt)
    | _, _ => none
  | _ => none

/-- The `ValueError` text `datetime.fromisoformat` raises. -/
def invalidIso (s : String) : String :=
  "Invalid isoformat string: \x27" ++ s ++ "\x27"

/-! ## Function-call handlers (`app/routes/vapi.py`, lines 371-534) -/

/-- Payload dict returned by a dispatched function handler: `result`,
`result`+`booking_url`, `message`, or `error`. -/
inductive FnResult where
  | result (s : String)
  | resultUrl (s : String) (booking_url : Option String)
  | message (s : String)
  | error (s : String)
deriving DecidableEq, Repr

/-- The membership lines of `get_membership_info`'s response string. -/
def membership_lines (ms : List MembershipType) : String :=
  String.join (ms.map (fun m =>
    "- " ++ m.name ++ ": " ++ m.price ++ " " ++ m.currency ++ " per " ++ m.period ++ "\n"))

/-- Embedding of `get_membership_info` (vapi.py lines 374-386);
`KnowledgeBaseService.get_membership_info` is inlined (club lookup, then
`club.membership_types or []`). -/
def get_membership_info (club_id : Nat) (db : DB) : FnResult :=
  let memberships :=
    match db.clubs.find? (fun c => c.id == club_id) with
    | none => []
    | some club => club.membership_types
  if memberships.isEmpty then
    FnResult.message "No membership information available"
  else
    FnResult.result ("We offer the following memberships:\n" ++ membership_lines memberships)

/-- Embedding of `get_availability` (vapi.py lines 389-404):
`MatchiService.check_availability` is a placeholder that always reports
`available=True`, so the affirmative branch is always taken; absent `date` /
`time` parameters render as "None" in the f-string. -/
def get_availability (parameters : FnParams) : FnResult :=
  FnResult.result ("There is availability on " ++ pyStr parameters.date ++ " at " ++
    pyStr parameters.time ++ ". Would you like me to book it for you?")

/-- The `resource_map` lookup of `create_booking_from_call`: the activity is
lowercased for the table lookup, and an unrecognized activity falls back to
`activity.title()`. -/
def resource_name_for (activity : String) : String :=
  let la := pyLower activity
  if la == "tennis" then "Tennis Court"
  else if la == "padel" then "Padel Court"
  else if la == "gym" then "Gym Session"
  else pyTitle activity

/-- Embedding of `create_booking_from_call` (vapi.py lines 407-471).  The
whole body runs under `try`, so every raised `KeyError`/`ValueError` becomes
a `Failed to create booking: ...` error payload and leaves the store
unchanged.  Note: no conflict check is performed.  The confirmation-SMS step
runs under its own `try`, so its failure only drops the notification row. -/
def create_booking_from_call (parameters : FnParams)
    (conversation : Conversation) (db : DB) (now : Int)
    (sms_error : Option String) : FnResult × DB :=
  match parameters.booking_date with
  | none => (FnResult.error "Failed to create booking: \x27booking_date\x27", db)
  | some bd =>
    match fromisoformat bd with
    | none => (FnResult.error ("Failed to create booking: " ++ invalidIso bd), db)
    | some booking_date =>
      let times :=
        match parameters.booking_time with
        | some bt =>
          match fromisoformat (bd ++ "T" ++ bt) with
          | none => Except.error (invalidIso (bd ++ "T" ++ bt))
          | some st => Except.ok (st, st + 60)
        | none =>
          let ss := bd ++ "T" ++ parameters.start_time.getD "10:00"
          let es := bd ++ "T" ++ parameters.end_time.getD "11:00"
          match fromisoformat ss, fromisoformat es with
          | some st, some et => Except.ok (st, et)
          | none, _ => Except.error (invalidIso ss)
          | some _, none => Except.error (invalidIso es)
      match times with
      | Except.error e => (FnResult.error ("Failed to create booking: " ++ e), db)
      | Except.ok (st, et) =>
        let activity := parameters.activity.getD "court"
        let resource_name := resource_name_for activity
        match parameters.customer_name with
        | none => (FnResult.error "Failed to create booking: \x27customer_name\x27", db)
        | some cn =>
          match parameters.customer_phone with
          | none => (FnResult.error "Failed to create booking: \x27customer_phone\x27", db)
          | some cp =>
            let booking : Booking := {
              id := db.next_id
              club_id := conversation.club_id
              customer_id := conversation.customer_id
              conversation_id := some conversation.id
              booking_type := BookingType.court
              status := BookingStatus.pending
              resource_name := resource_name
              description := none
              booking_date := booking_date
              start_time := st
              end_time := et
              duration_minutes := none
              price := none
              currency := "SEK"
              payment_status := none
              contact_name := cn
              contact_phone := cp
              contact_email := parameters.customer_email
              notes := parameters.notes
              special_requests := none
              matchi_booking_id := none
              confirmation_code := "BK" ++ toString now
              confirmation_sent_at := none
              cancellation_reason := none
              cancelled_at := none
              cancelled_by := none }
            let db1 := { db with bookings := db.bookings ++ [booking],
                                 next_id := db.next_id + 1 }
            let db2 := (send_booking_confirmation db1 booking.id sms_error now).2
            (FnResult.result ("Booking created! Confirmation code: " ++
              booking.confirmation_code ++
              ". You\x27ll receive an SMS confirmation shortly."), db2)

/-- Embedding of `save_customer_info` (vapi.py lines 474-494): supplied
fields overwrite the conversation's customer (the placeholder name sentinel
"Unknown Caller" is ignored), status becomes interested and the last-contact
timestamp is refreshed; a missing customer row is silently fine. -/
def save_customer_info (parameters : FnParams) (conversation : Conversation)
    (db : DB) (now : Int) : FnResult × DB :=
  match db.customers.find? (fun c => c.id == conversation.customer_id) with
  | none => (FnResult.result "Customer information saved successfully", db)
  | some _ =>
    let f := fun (c : Customer) =>
      let c1 :=
        match parameters.name with
        | some n => if n != "Unknown Caller" then { c with name := n } else c
        | none => c
      let c2 :=
        match parameters.email with
        | some e => { c1 with email := some e }
        | none => c1
      let c3 :=
        match parameters.interested_in with
        | some i => { c2 with interested_in := some i }
        | none => c2
      let c4 :=
        match parameters.notes with
        | some nt => { c3 with notes := some nt }
        | none => c3
      { c4 with status := CustomerStatus.interested, last_contact_date := some now }
    (FnResult.result "Customer information saved successfully",
     { db with customers := (updateFirst (fun c => c.id == conversation.customer_id)
        f db.customers) })

/-- Embedding of `escalate_to_manager` (vapi.py lines 497-524): the required
parameters are read with `[...]` (a missing key raises `KeyError` out of the
handler), the manager notification is attempted, and the conversation is
marked escalated regardless of the delivery outcome; the returned payload is
a reassuring `result` in both the success and failure case. -/
def escalate_to_manager (parameters : FnParams) (conversation : Conversation)
    (db : DB) (sms_error : Option String) (now : Int) :
    (Except PyExn FnResult) × DB :=
  match parameters.customer_name with
  | none => (Except.error (PyExn.keyError "customer_name"), db)
  | some cn =>
    match parameters.customer_phone with
    | none => (Except.error (PyExn.keyError "customer_phone"), db)
    | some cp =>
      match parameters.question with
      | none => (Except.error (PyExn.keyError "question"), db)
      | some q =>
        let res := send_escalation_to_manager db conversation.club_id cn cp q
          (some conversation.id) sms_error now
        let escalate := fun (c : Conversation) =>
          { c with escalated_to_manager := true, status := ConversationStatus.escalated }
        let db2 := { res.2 with conversations :=
          (updateFirst (fun c => c.id == conversation.id) escalate res.2.conversations) }
        if res.1.success then
          (Except.ok (FnResult.result ("I\x27ve forwarded your question to our manager. " ++
            "They\x27ll contact you shortly to help with your inquiry.")), db2)
        else
          (Except.ok (FnResult.result ("I\x27ll make sure someone gets back to you about this. " ++
            "Is there anything else I can help you with right now?")), db2)

/-- `MatchiService.get_booking_url` (matchi_service.py lines 29-45). -/
def get_booking_url (db : DB) (club_id : Nat) : Option String :=
  match db.clubs.find? (fun c => c.id == club_id) with
  | none => none
  | some club => club.matchi_booking_url

/-- `MatchiService.generate_booking_instructions` (matchi_service.py lines
47-75); the long triple-quoted instruction text is abstracted to one line. -/
def generate_booking_instructions (db : DB) (club_id : Nat) : String :=
  match db.clubs.find? (fun c => c.id == club_id) with
  | none => "For bookings, please contact us directly by phone."
  | some club =>
    match club.matchi_booking_url with
    | none => "For bookings, please contact us directly by phone."
    | some url =>
      if url == "" then "For bookings, please contact us directly by phone."
      else "To make a booking, you can visit our booking page at " ++ url ++
        ". If you\x27d prefer to book over the phone, I can help you with that too."

/-- Embedding of `get_matchi_booking_link` (vapi.py lines 527-533). -/
def get_matchi_booking_link (club_id : Nat) (db : DB) : FnResult :=
  FnResult.resultUrl (generate_booking_instructions db club_id)
    (get_booking_url db club_id)

/-! ## Webhook event handlers and router (`app/routes/vapi.py`, lines 156-368) -/

/-- A JSON body returned by the webhook endpoint. -/
inductive WebhookBody where
  | ack (status : String) (message : Option String)
  | callStartOk (conversation_id customer_id : Nat)
  | fn (r : FnResult)
  | detail (d : String)
deriving DecidableEq, Repr

/-- HTTP status code plus JSON body. -/
structure WebhookResponse where
  status_code : Nat
  body : WebhookBody
deriving DecidableEq, Repr

/-- Embedding of `handle_call_start` (vapi.py lines 219-273).  `.dict()`
keeps an unset `call` (or `customer`) as `None`, on which the chained
`.get(...)` raises `AttributeError`; a falsy call id / phone number or an
unresolvable assistant id is answered with a 200-acknowledged error body;
otherwise the customer is found-or-created and a new Conversation row is
always inserted (no lookup of an existing row for the call id). -/
def handle_call_start (data : VAPIWebhookPayload) (db : DB) (now : Int) :
    (Except PyExn WebhookBody) × DB :=
  match data.call with
  | none => (Except.error PyExn.attributeError, db)
  | some call =>
    match call.customer with
    | none => (Except.error PyExn.attributeError, db)
    | some customer =>
      let call_id := call.id
      let phone_number := customer.number
      let assistant_id := call.assistantId
      if call_id == "" then
        (Except.ok (WebhookBody.ack "error" (some "Missing call ID")), db)
      else if pyFalsy phone_number then
        (Except.ok (WebhookBody.ack "error" (some "Missing phone number")), db)
      else
        let phone := phone_number.getD ""
        let club : Option Club :=
          match assistant_id with
          | some aid =>
            if aid != "" then db.clubs.find? (fun c => c.ai_assistant_id == some aid)
            else none
          | none => none
        match club with
        | none => (Except.ok (WebhookBody.ack "error" (some "Club not found")), db)
        | some club =>
          let found := db.customers.find?
            (fun (c : Customer) => c.phone == phone && c.club_id == club.id)
          let cust : Customer :=
            match found with
            | some c => c
            | none =>
              { id := db.next_id, club_id := club.id, name := "Unknown Caller",
                phone := phone, email := none, source := some "phone_call",
                status := CustomerStatus.lead, interested_in := none,
                notes := none, last_contact_date := none }
          let db1 :=
            match found with
            | some _ => db
            | none => { db with customers := db.customers ++ [cust],
                                next_id := db.next_id + 1 }
          let conversation : Conversation := {
            id := db1.next_id
            club_id := club.id
            customer_id := cust.id
            vapi_call_id := some call_id
            vapi_assistant_id := assistant_id
            phone_number := some phone
            status := ConversationStatus.active
            started_at := now
            ended_at := none
            call_duration := none
            call_cost := none
            outcome := none
            escalated_to_manager := false }
          (Except.ok (WebhookBody.callStartOk conversation.id cust.id),
           { db1 with conversations := db1.conversations ++ [conversation],
                      next_id := db1.next_id + 1 })

/-- Embedding of `handle_call_end` (vapi.py lines 276-295): if a conversation
matches the call id it is unconditionally overwritten (status completed,
`ended_at = now`, duration/cost/outcome from the payload); either way
`status: ok` is returned. -/
def handle_call_end (data : VAPIWebhookPayload) (db : DB) (now : Int) :
    (Except PyExn WebhookBody) × DB :=
  match data.call with
  | none => (Except.error PyExn.attributeError, db)
  | some call =>
    match db.conversations.find? (fun c => c.vapi_call_id == some call.id) with
    | none => (Except.ok (WebhookBody.ack "ok" none), db)
    | some _ =>
      let overwrite := fun (c : Conversation) =>
        { c with
          status := ConversationStatus.completed
          ended_at := some now
          call_duration := call.duration
          call_cost := call.cost
          outcome := call.endedReason }
      (Except.ok (WebhookBody.ack "ok" none),
       { db with conversations := (updateFirst (fun c => c.vapi_call_id == some call.id)
          overwrite db.conversations) })

/-- Embedding of `handle_function_call` (vapi.py lines 298-333): the
`functionCall` and `call` objects are dereferenced (raising on `None`), the
conversation is matched by call id, and the function name is dispatched over
the closed if/elif table with an explicit unknown-function error payload. -/
def handle_function_call (data : VAPIWebhookPayload) (db : DB) (now : Int)
    (sms_error : Option String) : (Except PyExn WebhookBody) × DB :=
  match data.functionCall with
  | none => (Except.error PyExn.attributeError, db)
  | some fc =>
    match data.call with
    | none => (Except.error PyExn.attributeError, db)
    | some call =>
      match db.conversations.find? (fun c => c.vapi_call_id == some call.id) with
      | none => (Except.ok (WebhookBody.fn (FnResult.error "Conversation not found")), db)
      | some conversation =>
        if fc.name == "get_membership_info" then
          (Except.ok (WebhookBody.fn (get_membership_info conversation.club_id db)), db)
        else if fc.name == "get_availability" then
          (Except.ok (WebhookBody.fn (get_availability fc.parameters)), db)
        else if fc.name == "create_booking" then
          let r := create_booking_from_call fc.parameters conversation db now sms_error
          (Except.ok (WebhookBody.fn r.1), r.2)
        else if fc.name == "save_customer_info" then
          let r := save_customer_info fc.parameters conversation db now
          (Except.ok (WebhookBody.fn r.1), r.2)
        else if fc.name == "escalate_to_manager" then
          match escalate_to_manager fc.parameters conversation db sms_error now with
          | (Except.error e, db1) => (Except.error e, db1)
          | (Except.ok r, db1) => (Except.ok (WebhookBody.fn r), db1)
        else if fc.name == "get_matchi_booking_link" then
          (Except.ok (WebhookBody.fn (get_matchi_booking_link conversation.club_id db)), db)
        else
          (Except.ok (WebhookBody.fn (FnResult.error ("Unknown function: " ++ fc.name))), db)

/-- Embedding of `handle_message` (vapi.py lines 336-362): a message event
with a matched conversation appends a Message row (any role other than
"assistant" is stored as customer); with no matched conversation it is
silently acknowledged. -/
def handle_message (data : VAPIWebhookPayload) (db : DB) (now : Int) :
    (Except PyExn WebhookBody) × DB :=
  match data.call with
  | none => (Except.error PyExn.attributeError, db)
  | some call =>
    match db.conversations.find? (fun c => c.vapi_call_id == some call.id) with
    | none => (Except.ok (WebhookBody.ack "ok" none), db)
    | some conversation =>
      match data.message with
      | none => (Except.error PyExn.attributeError, db)
      | some md =>
        let db_role :=
          if pyLower md.role == "assistant" then MessageRole.assistant
          else MessageRole.customer
        let m : ConvMessage := {
          conversation_id := conversation.id
          role := db_role
          content := md.content
          vapi_message_id := md.id
          timestamp := now }
        (Except.ok (WebhookBody.ack "ok" none),
         { db with messages := db.messages ++ [m] })

/-- Embedding of `handle_transcript` (vapi.py lines 365-368): pure
acknowledgement. -/
def handle_transcript (_data : VAPIWebhookPayload) (db : DB) :
    (Except PyExn WebhookBody) × DB :=
  (Except.ok (WebhookBody.ack "ok" none), db)

/-- The inbound request body as the webhook sees it after JSON decoding and
pydantic validation: undecodable, decodable-but-schema-invalid (the pydantic
error text attached), or a validated payload. -/
inductive ReqBody where
  | nonJson
  | jsonInvalid (validation_error : String)
  | jsonPayload (p : VAPIWebhookPayload)
deriving DecidableEq, Repr

/-- FastAPI around a handler call: a returned dict is a 200 response, an
uncaught exception a 500 response. -/
def runHandler (r : (Except PyExn WebhookBody) × DB) : WebhookResponse × DB :=
  match r with
  | (Except.ok b, db1) => ({ status_code := 200, body := b }, db1)
  | (Except.error _, db1) =>
    ({ status_code := 500, body := WebhookBody.detail "Internal Server Error" }, db1)

/-- The five recognized webhook event types, in the order of the if/elif
chain of `vapi_webhook`. -/
def known_event_types : List String :=
  ["call-start", "call-end", "function-call", "message", "transcript"]

/-- The if/elif dispatch of `vapi_webhook` over the recognized event types
(only invoked when `p.type` is one of `known_event_types`). -/
def dispatch_event (p : VAPIWebhookPayload) (db : DB) (now : Int)
    (sms_error : Option String) : (Except PyExn WebhookBody) × DB :=
  if p.type == "call-start" then handle_call_start p db now
  else if p.type == "call-end" then handle_call_end p db now
  else if p.type == "function-call" then handle_function_call p db now sms_error
  else if p.type == "message" then handle_message p db now
  else handle_transcript p db

/-- Embedding of `vapi_webhook` (vapi.py lines 156-216): production-gated
signature check (401), success acknowledgement of non-JSON bodies, 422 for
schema-invalid bodies, the if/elif dispatch on the five known event types
(split into `known_event_types` membership plus `dispatch_event`, equivalent
to the source's if/elif/else chain), and 400 for an unknown type. -/
def vapi_webhook (environment : String) (signature_valid : Bool)
    (body : ReqBody) (db : DB) (now : Int) (sms_error : Option String) :
    WebhookResponse × DB :=
  if environment == "production" && !signature_valid then
    ({ status_code := 401, body := WebhookBody.detail "Invalid webhook signature" }, db)
  else
    match body with
    | ReqBody.nonJson =>
      ({ status_code := 200,
         body := WebhookBody.ack "ok" (some "Non-JSON request received") }, db)
    | ReqBody.jsonInvalid ve =>
      ({ status_code := 422, body := WebhookBody.detail ("Invalid payload: " ++ ve) }, db)
    | ReqBody.jsonPayload p =>
      if known_event_types.contains p.type then
        runHandler (dispatch_event p db now sms_error)
      else ({ status_code := 400,
              body := WebhookBody.detail ("Unknown event type: " ++ p.type) }, db)

/-! ## Concrete fixtures used by witnesses and counterexamples -/

/-- A sample tenant with a configured assistant id and manager phone. -/
def clubOne : Club :=
  { id := 1, name := "Padel Club", ai_assistant_id := some "asst1",
    manager_name := some "Mia", manager_phone := some "+46700000099",
    matchi_booking_url := none, membership_types := [], is_active := true }

/-- A sample customer of `clubOne`. -/
def custOne : Customer :=
  { id := 2, club_id := 1, name := "Alice", phone := "+46700000001",
    email := none, source := some "phone_call", status := CustomerStatus.lead,
    interested_in := none, notes := none, last_contact_date := none }

/-- A sample active conversation of `custOne` with external call id
"call-abc". -/
def convOne : Conversation :=
  { id := 3, club_id := 1, customer_id := 2, vapi_call_id := some "call-abc",
    vapi_assistant_id := some "asst1", phone_number := some "+46700000001",
    status := ConversationStatus.active, started_at := 0, ended_at := none,
    call_duration := none, call_cost := none, outcome := none,
    escalated_to_manager := false }

/-- A store holding `clubOne`, `custOne` and `convOne`. -/
def dbBase : DB :=
  { clubs := [clubOne], customers := [custOne], conversations := [convOne],
    bookings := [], notifications := [], messages := [], next_id := 10 }

/-- Function-call parameters booking a padel slot on 2025-06-02 at the given
start time. -/
def paramsPadel (t : String) : FnParams :=
  { FnParams.empty with
    activity := some "padel"
    booking_date := some "2025-06-02"
    booking_time := some t
    customer_name := some "Alice"
    customer_phone := some "+46700000001" }

/-- The store after a first phone booking of the Padel Court for
2025-06-02 10:00-11:00 (created through the webhook path at wall time
100). -/
def dbAfterPadel : DB :=
  (create_booking_from_call (paramsPadel "10:00") convOne dbBase 100 none).2

/-- Two bookings of the same club and resource, both in an active status,
with overlapping half-open intervals and distinct ids. -/
def hasActiveOverlapPair (bookings : List Booking) : Bool :=
  bookings.any (fun a => bookings.any (fun b =>
    a.id != b.id &&
    a.club_id == b.club_id &&
    a.resource_name == b.resource_name &&
    active_statuses.contains a.status &&
    active_statuses.contains b.status &&
    decide (a.start_time < b.end_time) &&
    decide (a.end_time > b.start_time)))

/-- Claim C1 (code bug in `create_booking_from_call`): the webhook
function-call booking path persists a second overlapping active booking for
the same tenant and resource and reports success, instead of failing with a
conflict error; the direct booking-create API rejects the very same request
with a 409.  Evaluated at the failing input: padel bookings 10:00-11:00 and
10:30-11:30 on 2025-06-02 for club 1. -/
theorem create_booking_from_call_allows_overlap :
    (create_booking_from_call (paramsPadel "10:30") convOne dbAfterPadel 200 none).1 =
      FnResult.result ("Booking created! Confirmation code: BK200. " ++
        "You\x27ll receive an SMS confirmation shortly.") ∧
    hasActiveOverlapPair
      (create_booking_from_call (paramsPadel "10:30") convOne dbAfterPadel 200 none).2.bookings
      = true ∧
    check_double_booking dbAfterPadel.bookings 1 "Padel Court"
      ((fromisoformat "2025-06-02T10:30").getD 0)
      ((fromisoformat "2025-06-02T11:30").getD 0) none = true := by
  refine ⟨?_, ?_, ?_⟩ <;> rfl

/-- The call-start payload for external call id "call-xyz" from `custOne`'s
phone, addressed to `clubOne`'s assistant. -/
def callStartXyz : VAPIWebhookPayload :=
  { type := "call-start"
    call := some
      { id := "call-xyz"
        assistantId := some "asst1"
        customer := some { number := some "+46700000001" }
        duration := none
        cost := none
        endedReason := none }
    message := none
    functionCall := none }

/-- The store after one delivery of `callStartXyz`. -/
def dbAfterStartOnce : DB := (handle_call_start callStartXyz dbBase 50).2

/-- Claim C3 (code bug in `handle_call_start`): the handler never looks up an
existing Conversation for the external call id, so delivering the same
call-start twice inserts a second Conversation row for "call-xyz" and the two
responses carry different conversation ids (10, then 11) — instead of the
claimed idempotent return of the existing conversation.  (On the real
database the second insert violates the unique index on
`conversations.vapi_call_id`, so the handler raises instead of returning the
existing row; either way the claim fails.) -/
theorem handle_call_start_duplicates_conversation :
    (handle_call_start callStartXyz dbBase 50).1 =
      Except.ok (WebhookBody.callStartOk 10 2) ∧
    (handle_call_start callStartXyz dbAfterStartOnce 60).1 =
      Except.ok (WebhookBody.callStartOk 11 2) ∧
    ((handle_call_start callStartXyz dbAfterStartOnce 60).2.conversations.filter
      (fun c => c.vapi_call_id == some "call-xyz")).length = 2 := by
  refine ⟨?_, ?_, ?_⟩ <;> rfl

/-! ## C4: call-end handling -/

/-- An escalated conversation with external call id "call-esc". -/
def convEsc : Conversation :=
  { convOne with
    id := 4
    vapi_call_id := some "call-esc"
    status := ConversationStatus.escalated
    escalated_to_manager := true }

/-- `dbBase` with `convEsc` as its only conversation. -/
def dbEsc : DB := { dbBase with conversations := [convEsc] }

/-- A call-end event for "call-esc". -/
def callEndEsc : VAPIWebhookPayload :=
  { type := "call-end"
    call := some
      { id := "call-esc"
        assistantId := none
        customer := none
        duration := some 180
        cost := none
        endedReason := some "customer-ended-call" }
    message := none
    functionCall := none }

/-- Claim C4 counterexample: a call-end for an already-escalated conversation
is not a no-op — the handler flips its status to completed and overwrites
`ended_at`, contradicting the claim that completed/escalated conversations
are left unchanged. -/
theorem handle_call_end_mutates_escalated :
    convEsc.status = ConversationStatus.escalated ∧
    (handle_call_end callEndEsc dbEsc 500).2.conversations.find? (fun c => c.id == 4) =
      some { convEsc with
              status := ConversationStatus.completed
              ended_at := some 500
              call_duration := some 180
              outcome := some "customer-ended-call" } ∧
    ConversationStatus.completed ≠ ConversationStatus.escalated := by
  refine ⟨rfl, rfl, by decide⟩

/-- Claim C4 (amended): whenever a conversation matches the call id of a
call-end event, `handle_call_end` returns success and unconditionally
overwrites that conversation — status becomes completed, `ended_at` is set to
the current time, and duration/cost/outcome are taken from the payload —
regardless of its previous status (an active conversation is completed, but
an escalated or already-completed one is rewritten just the same, so a second
delivery refreshes `ended_at` rather than being a no-op); when no
conversation matches, success is returned with the store unchanged. -/
theorem handle_call_end_overwrites (data : VAPIWebhookPayload) (db : DB)
    (now : Int) (call : CallInfo) (conv : Conversation)
    (hcall : data.call = some call)
    (hfind : db.conversations.find? (fun c => c.vapi_call_id == some call.id) = some conv) :
    (handle_call_end data db now).1 = Except.ok (WebhookBody.ack "ok" none) ∧
    (handle_call_end data db now).2.conversations.find?
        (fun c => c.vapi_call_id == some call.id) =
      some { conv with
              status := ConversationStatus.completed
              ended_at := some now
              call_duration := call.duration
              call_cost := call.cost
              outcome := call.endedReason } := by
  have hq := List.find?_some hfind
  unfold handle_call_end
  simp only [hcall, hfind]
  exact ⟨trivial, find?_updateFirst _ _ _ _ hfind hq⟩

/-- A call-end event for `convOne`'s call id "call-abc". -/
def callInfoEndAbc : CallInfo :=
  { id := "call-abc"
    assistantId := none
    customer := none
    duration := some 60
    cost := some 5
    endedReason := some "assistant-ended-call" }

/-- The call-end payload wrapping `callInfoEndAbc`. -/
def callEndAbc : VAPIWebhookPayload :=
  { type := "call-end", call := some callInfoEndAbc, message := none, functionCall := none }

/-- Witness for the amended C4 theorem at a concrete input. -/
theorem handle_call_end_overwrites_witness :
    (handle_call_end callEndAbc dbBase 7).1 = Except.ok (WebhookBody.ack "ok" none) ∧
    (handle_call_end callEndAbc dbBase 7).2.conversations.find?
        (fun c => c.vapi_call_id == some "call-abc") =
      some { convOne with
              status := ConversationStatus.completed
              ended_at := some 7
              call_duration := some 60
              call_cost := some 5
              outcome := some "assistant-ended-call" } :=
  handle_call_end_overwrites callEndAbc dbBase 7 callInfoEndAbc convOne rfl rfl

/-! ## C5: booking status transitions -/

/-- A booking of club 1 in the terminal status completed. -/
def bookingCompleted : Booking :=
  { id := 20, club_id := 1, customer_id := 2, conversation_id := none,
    booking_type := BookingType.court, status := BookingStatus.completed,
    resource_name := "Court 1", description := none, booking_date := 0,
    start_time := 0, end_time := 60, duration_minutes := none, price := none,
    currency := "SEK", payment_status := none, contact_name := "Alice",
    contact_phone := "+46700000001", contact_email := none, notes := none,
    special_requests := none, matchi_booking_id := none,
    confirmation_code := "ABCD1234", confirmation_sent_at := none,
    cancellation_reason := none, cancelled_at := none, cancelled_by := none }

/-- `dbBase` with the completed booking. -/
def dbCompleted : DB := { dbBase with bookings := [bookingCompleted] }

/-- Claim C5 counterexample: confirming a booking that is already in the
terminal status completed moves it to confirmed — the code has no guard, so a
terminal booking does leave its status, contradicting the claim. -/
theorem confirm_booking_leaves_terminal :
    bookingCompleted.status = BookingStatus.completed ∧
    (confirm_booking dbCompleted 20 false none 0).2.bookings.find? (fun b => b.id == 20) =
      some { bookingCompleted with status := BookingStatus.confirmed } ∧
    BookingStatus.confirmed ≠ BookingStatus.completed := by
  refine ⟨rfl, rfl, by decide⟩

/-- `BookingUpdate` with no field supplied. -/
def BookingUpdate.empty : BookingUpdate :=
  { status := none, booking_type := none, resource_name := none,
    description := none, booking_date := none, start_time := none,
    end_time := none, duration_minutes := none, price := none,
    payment_status := none, contact_name := none, contact_phone := none,
    contact_email := none, notes := none, special_requests := none,
    matchi_booking_id := none, cancellation_reason := none }

/-- A patch that only rewrites the status to pending. -/
def updPending : BookingUpdate :=
  { BookingUpdate.empty with status := some BookingStatus.pending }

/-- Claim C5 (amended): no booking operation checks the current status —
`confirm_booking` sets any existing booking to confirmed (not only pending
ones), `cancel_booking` sets any existing booking to cancelled and records
reason/timestamp/actor "system" whatever its previous status, and
`update_booking` applies every supplied field (including `status`) with no
transition guard whenever no resource/time field is being changed; terminal
statuses (completed, cancelled, no_show) are therefore not preserved. -/
theorem booking_ops_ignore_terminal_status (db : DB) (booking_id : Nat)
    (b : Booking) (reason : Option String) (now : Int) (u : BookingUpdate)
    (hfind : db.bookings.find? (fun x => x.id == booking_id) = some b) :
    ((confirm_booking db booking_id false none now).2.bookings.find?
        (fun x => x.id == booking_id) =
      some { b with status := BookingStatus.confirmed }) ∧
    ((cancel_booking db booking_id reason now).2.bookings.find?
        (fun x => x.id == booking_id) =
      some { b with
              status := BookingStatus.cancelled
              cancellation_reason := reason
              cancelled_at := some now
              cancelled_by := some "system" }) ∧
    (u.resource_name = none → u.start_time = none → u.end_time = none →
      (update_booking db booking_id u).2.bookings.find?
          (fun x => x.id == booking_id) = some (u.apply b)) := by
  have hq := List.find?_some hfind
  refine ⟨?_, ?_, ?_⟩
  · unfold confirm_booking
    simp only [hfind]
    exact find?_updateFirst _ _ _ _ hfind hq
  · unfold cancel_booking
    simp only [hfind]
    exact find?_updateFirst _ _ _ _ hfind hq
  · intro h1 h2 h3
    unfold update_booking
    simp only [hfind, h1, h2, h3, Option.isSome_none, Bool.or_self, Bool.false_and,
      Bool.or_false, if_false]
    exact find?_updateFirst _ _ _ _ hfind hq

/-- Witness for the amended C5 theorem: the completed booking is moved to
confirmed by confirm, to cancelled by cancel, and back to pending by a
status-only update. -/
theorem booking_ops_ignore_terminal_status_witness :
    ((confirm_booking dbCompleted 20 false none 9).2.bookings.find?
        (fun x => x.id == 20) =
      some { bookingCompleted with status := BookingStatus.confirmed }) ∧
    ((cancel_booking dbCompleted 20 (some "sick") 9).2.bookings.find?
        (fun x => x.id == 20) =
      some { bookingCompleted with
              status := BookingStatus.cancelled
              cancellation_reason := some "sick"
              cancelled_at := some 9
              cancelled_by := some "system" }) ∧
    ((update_booking dbCompleted 20 updPending).2.bookings.find?
        (fun x => x.id == 20) = some (updPending.apply bookingCompleted)) :=
  ⟨(booking_ops_ignore_terminal_status dbCompleted 20 bookingCompleted
      (some "sick") 9 updPending rfl).1,
   (booking_ops_ignore_terminal_status dbCompleted 20 bookingCompleted
      (some "sick") 9 updPending rfl).2.1,
   (booking_ops_ignore_terminal_status dbCompleted 20 bookingCompleted
      (some "sick") 9 updPending rfl).2.2 rfl rfl rfl⟩

/-! ## C6: webhook transport contract -/

/-- A schema-valid call-start payload whose `call` object is null. -/
def callStartNoCall : VAPIWebhookPayload :=
  { type := "call-start", call := none, message := none, functionCall := none }

/-- Claim C6 counterexample: a decodable, schema-valid body with the
recognized type call-start but a null `call` object makes the dispatched
handler raise `AttributeError` (the chained `.get` on `None`), so the webhook
answers 500, not the claimed 200 acknowledgement. -/
theorem vapi_webhook_500_on_null_call :
    (vapi_webhook "development" true (ReqBody.jsonPayload callStartNoCall) dbBase 0 none).1 =
      { status_code := 500, body := WebhookBody.detail "Internal Server Error" } ∧
    (vapi_webhook "development" true (ReqBody.jsonPayload callStartNoCall) dbBase 0 none).1.status_code
      ≠ 200 := by
  refine ⟨rfl, by decide⟩

/-- Claim C6 (amended): for every request that passes the production-mode
signature gate, the webhook answers 200 for an undecodable body, 422 for a
decodable body failing schema validation, 400 for a schema-valid body whose
type is not recognized, and — for a recognized type — 200 carrying exactly
the dispatched handler's payload whenever that handler returns (including
when that payload is a domain-level error); when the dispatched handler
raises (for example on a null `call`/`functionCall` object), the webhook
instead surfaces a 500. -/
theorem vapi_webhook_transport_contract (environment : String)
    (signature_valid : Bool) (db : DB) (now : Int) (sms_error : Option String)
    (hgate : (environment == "production" && !signature_valid) = false) :
    (vapi_webhook environment signature_valid ReqBody.nonJson db now sms_error =
      ({ status_code := 200,
         body := WebhookBody.ack "ok" (some "Non-JSON request received") }, db)) ∧
    (∀ ve, vapi_webhook environment signature_valid (ReqBody.jsonInvalid ve) db now sms_error =
      ({ status_code := 422, body := WebhookBody.detail ("Invalid payload: " ++ ve) }, db)) ∧
    (∀ p, known_event_types.contains p.type = false →
      vapi_webhook environment signature_valid (ReqBody.jsonPayload p) db now sms_error =
        ({ status_code := 400,
           body := WebhookBody.detail ("Unknown event type: " ++ p.type) }, db)) ∧
    (∀ p b db2, known_event_types.contains p.type = true →
      dispatch_event p db now sms_error = (Except.ok b, db2) →
      vapi_webhook environment signature_valid (ReqBody.jsonPayload p) db now sms_error =
        ({ status_code := 200, body := b }, db2)) ∧
    (∀ p e db2, known_event_types.contains p.type = true →
      dispatch_event p db now sms_error = (Except.error e, db2) →
      vapi_webhook environment signature_valid (ReqBody.jsonPayload p) db now sms_error =
        ({ status_code := 500, body := WebhookBody.detail "Internal Server Error" }, db2)) := by
  unfold vapi_webhook
  simp only [hgate, Bool.false_eq_true, if_false]
  refine ⟨trivial, fun ve => trivial, ?_, ?_, ?_⟩
  · intro p hp
    simp only [hp, Bool.false_eq_true, if_false]
  · intro p b db2 hp hd
    simp only [hp, if_true, hd, runHandler]
  · intro p e db2 hp hd
    simp only [hp, if_true, hd, runHandler]

/-- A function-call payload for an unmatched call id, whose dispatched
handler reports a domain error payload. -/
def fnCallUnknownConv : VAPIWebhookPayload :=
  { type := "function-call"
    call := some
      { id := "call-nope"
        assistantId := none
        customer := none
        duration := none
        cost := none
        endedReason := none }
    message := none
    functionCall := some { name := "create_booking", parameters := FnParams.empty } }

/-- An unknown-type payload. -/
def unknownTypePayload : VAPIWebhookPayload :=
  { type := "something-else", call := none, message := none, functionCall := none }

/-- Witness for the amended C6 theorem at concrete inputs, one per clause;
the last clause shows a 200 acknowledgement carrying a domain-level error
payload. -/
theorem vapi_webhook_transport_contract_witness :
    (vapi_webhook "development" true ReqBody.nonJson dbBase 0 none =
      ({ status_code := 200,
         body := WebhookBody.ack "ok" (some "Non-JSON request received") }, dbBase)) ∧
    (vapi_webhook "development" true (ReqBody.jsonInvalid "field required") dbBase 0 none =
      ({ status_code := 422,
         body := WebhookBody.detail ("Invalid payload: " ++ "field required") }, dbBase)) ∧
    (vapi_webhook "development" true (ReqBody.jsonPayload unknownTypePayload) dbBase 0 none =
      ({ status_code := 400,
         body := WebhookBody.detail ("Unknown event type: " ++ "something-else") }, dbBase)) ∧
    (vapi_webhook "development" true (ReqBody.jsonPayload fnCallUnknownConv) dbBase 0 none =
      ({ status_code := 200,
         body := WebhookBody.fn (FnResult.error "Conversation not found") }, dbBase)) :=
  ⟨(vapi_webhook_transport_contract "development" true dbBase 0 none rfl).1,
   (vapi_webhook_transport_contract "development" true dbBase 0 none rfl).2.1 "field required",
   (vapi_webhook_transport_contract "development" true dbBase 0 none rfl).2.2.1
     unknownTypePayload rfl,
   (vapi_webhook_transport_contract "development" true dbBase 0 none rfl).2.2.2.1
     fnCallUnknownConv (WebhookBody.fn (FnResult.error "Conversation not found")) dbBase
     rfl rfl⟩

/-! ## C7: unknown function names -/

/-- A function-call payload naming an unknown function, with a null `call`
object. -/
def fnCallNoCall : VAPIWebhookPayload :=
  { type := "function-call", call := none, message := none,
    functionCall := some { name := "frobnicate", parameters := FnParams.empty } }

/-- Claim C7 counterexample: a function-call event naming the unknown
function "frobnicate" but carrying a null `call` object makes the dispatcher
raise `AttributeError` (HTTP 500) instead of returning the claimed
Unknown-function error payload with a 200. -/
theorem handle_function_call_unknown_name_raises :
    (handle_function_call fnCallNoCall dbBase 0 none).1 = Except.error PyExn.attributeError ∧
    (vapi_webhook "development" true (ReqBody.jsonPayload fnCallNoCall) dbBase 0 none).1 =
      { status_code := 500, body := WebhookBody.detail "Internal Server Error" } := by
  refine ⟨rfl, rfl⟩

/-- The closed dispatch table of `handle_function_call`. -/
def dispatch_table_names : List String :=
  ["get_membership_info", "get_availability", "create_booking",
   "save_customer_info", "escalate_to_manager", "get_matchi_booking_link"]

/-- Claim C7 (amended): for every function-call event that carries its
`functionCall` and `call` objects and whose call id matches a conversation,
an unknown function name produces exactly the payload
`error = "Unknown function: <name>"`, the store is unchanged, no exception
leaves the dispatcher, and the webhook acknowledges with HTTP 200; when no
conversation matches, the dispatcher instead returns the
"Conversation not found" error payload (still 200); when the `functionCall`
or `call` object is null the handler raises and the webhook answers 500. -/
theorem handle_function_call_unknown_function (data : VAPIWebhookPayload)
    (db : DB) (now : Int) (sms_error : Option String) (fc : FunctionCallInfo)
    (call : CallInfo) (conv : Conversation) (environment : String)
    (signature_valid : Bool)
    (hfc : data.functionCall = some fc)
    (hcall : data.call = some call)
    (hfind : db.conversations.find? (fun c => c.vapi_call_id == some call.id) = some conv)
    (hname : dispatch_table_names.contains fc.name = false)
    (hty : data.type = "function-call")
    (hgate : (environment == "production" && !signature_valid) = false) :
    handle_function_call data db now sms_error =
      (Except.ok (WebhookBody.fn (FnResult.error ("Unknown function: " ++ fc.name))), db) ∧
    vapi_webhook environment signature_valid (ReqBody.jsonPayload data) db now sms_error =
      ({ status_code := 200,
         body := WebhookBody.fn (FnResult.error ("Unknown function: " ++ fc.name)) }, db) := by
  simp only [dispatch_table_names, List.contains_cons, List.contains_nil,
    Bool.or_eq_false_iff] at hname
  have h1 : handle_function_call data db now sms_error =
      (Except.ok (WebhookBody.fn (FnResult.error ("Unknown function: " ++ fc.name))), db) := by
    unfold handle_function_call
    simp only [hfc, hcall, hfind, hname.1, hname.2.1, hname.2.2.1, hname.2.2.2.1,
      hname.2.2.2.2.1, hname.2.2.2.2.2.1, Bool.false_eq_true, if_false]
  have hk : known_event_types.contains data.type = true := by rw [hty]; rfl
  have hd : dispatch_event data db now sms_error =
      handle_function_call data db now sms_error := by
    unfold dispatch_event
    rw [hty]
    rfl
  refine ⟨h1, ?_⟩
  unfold vapi_webhook
  simp only [hgate, Bool.false_eq_true, if_false, hk, if_true, hd, h1, runHandler]

/-- A function-call payload in `convOne`'s call "call-abc" naming the
unknown function "frobnicate". -/
def fnCallFrobnicate : VAPIWebhookPayload :=
  { type := "function-call"
    call := some
      { id := "call-abc"
        assistantId := none
        customer := none
        duration := none
        cost := none
        endedReason := none }
    message := none
    functionCall := some { name := "frobnicate", parameters := FnParams.empty } }

/-- Witness for the amended C7 theorem at a concrete input. -/
theorem handle_function_call_unknown_function_witness :
    handle_function_call fnCallFrobnicate dbBase 0 none =
      (Except.ok (WebhookBody.fn (FnResult.error ("Unknown function: " ++ "frobnicate"))), dbBase) ∧
    vapi_webhook "development" true (ReqBody.jsonPayload fnCallFrobnicate) dbBase 0 none =
      ({ status_code := 200,
         body := WebhookBody.fn (FnResult.error ("Unknown function: " ++ "frobnicate")) }, dbBase) :=
  handle_function_call_unknown_function fnCallFrobnicate dbBase 0 none
    { name := "frobnicate", parameters := FnParams.empty }
    { id := "call-abc", assistantId := none, customer := none, duration := none,
      cost := none, endedReason := none }
    convOne "development" true rfl rfl rfl rfl rfl rfl

/-! ## C8: escalation -/

theorem exists_find?_of_mem (l : List α) (p : α → Bool) (x : α)
    (hx : x ∈ l) (hpx : p x = true) :
    ∃ y, l.find? p = some y ∧ p y = true := by
  induction l with
  | nil => cases hx
  | cons a as ih =>
    by_cases ha : p a = true
    · exact ⟨a, by simp [List.find?_cons, ha], ha⟩
    · rcases List.mem_cons.mp hx with h | h
      · subst h
        exact absurd hpx ha
      · obtain ⟨y, hy, hpy⟩ := ih h
        refine ⟨y, ?_, hpy⟩
        rw [List.find?_cons]
        simp [ha, hy]

/-- Claim C8: for every `escalate_to_manager` function call on a matched
conversation of a club whose manager phone is configured, the conversation is
marked escalated (status and flag) regardless of the SMS delivery outcome, a
Notification row of type escalation for the manager's phone is appended with
status sent/failed mirroring the delivery outcome (and the provider error
recorded on failure), and the returned payload is a reassuring `result` — not
an `error` — in both the success and failure cases. -/
theorem escalate_to_manager_contract (parameters : FnParams)
    (conv : Conversation) (db : DB) (sms_error : Option String) (now : Int)
    (cn cp q mp : String) (club : Club)
    (hcn : parameters.customer_name = some cn)
    (hcp : parameters.customer_phone = some cp)
    (hq : parameters.question = some q)
    (hclub : db.clubs.find? (fun c => c.id == conv.club_id) = some club)
    (hmp : club.manager_phone = some mp)
    (hmpne : (mp == "") = false)
    (hmem : conv ∈ db.conversations) :
    ∃ n : Notification,
      (escalate_to_manager parameters conv db sms_error now).2.notifications =
        db.notifications ++ [n] ∧
      n.notification_type = NotificationType.escalation ∧
      n.recipient_phone = some mp ∧
      n.recipient_name = club.manager_name ∧
      n.status = (if sms_error.isNone then NotificationStatus.sent
                  else NotificationStatus.failed) ∧
      n.error_message = sms_error ∧
      (escalate_to_manager parameters conv db sms_error now).1 =
        Except.ok (FnResult.result (if sms_error.isNone then
          "I\x27ve forwarded your question to our manager. " ++
            "They\x27ll contact you shortly to help with your inquiry."
        else
          "I\x27ll make sure someone gets back to you about this. " ++
            "Is there anything else I can help you with right now?")) ∧
      ∃ c, (escalate_to_manager parameters conv db sms_error now).2.conversations.find?
            (fun x => x.id == conv.id) = some c ∧
        c.status = ConversationStatus.escalated ∧
        c.escalated_to_manager = true := by
  obtain ⟨y, hy, hpy⟩ := exists_find?_of_mem db.conversations
    (fun x => x.id == conv.id) conv hmem (by simp)
  unfold escalate_to_manager send_escalation_to_manager
  simp only [hcn, hcp, hq, hclub, hmp, hmpne, Bool.false_eq_true, if_false]
  cases sms_error with
  | none =>
    refine ⟨_, rfl, rfl, rfl, rfl, rfl, rfl, rfl, ?_⟩
    exact ⟨_, find?_updateFirst _ _ _ _ hy hpy, rfl, rfl⟩
  | some e =>
    refine ⟨_, rfl, rfl, rfl, rfl, rfl, rfl, rfl, ?_⟩
    exact ⟨_, find?_updateFirst _ _ _ _ hy hpy, rfl, rfl⟩

/-- Escalation parameters naming Alice's open question. -/
def paramsEscalate : FnParams :=
  { FnParams.empty with
    customer_name := some "Alice"
    customer_phone := some "+46700000001"
    question := some "Do you offer corporate memberships?" }

/-- Witness for C8 at a concrete input with a failing SMS provider: the
Notification row is recorded as failed, the conversation is escalated
anyway, and the payload is the reassuring fallback message. -/
theorem escalate_to_manager_contract_witness :
    ∃ n : Notification,
      (escalate_to_manager paramsEscalate convOne dbBase (some "twilio down") 40).2.notifications =
        dbBase.notifications ++ [n] ∧
      n.notification_type = NotificationType.escalation ∧
      n.recipient_phone = some "+46700000099" ∧
      n.recipient_name = clubOne.manager_name ∧
      n.status = (if (some "twilio down").isNone then NotificationStatus.sent
                  else NotificationStatus.failed) ∧
      n.error_message = some "twilio down" ∧
      (escalate_to_manager paramsEscalate convOne dbBase (some "twilio down") 40).1 =
        Except.ok (FnResult.result (if (some "twilio down").isNone then
          "I\x27ve forwarded your question to our manager. " ++
            "They\x27ll contact you shortly to help with your inquiry."
        else
          "I\x27ll make sure someone gets back to you about this. " ++
            "Is there anything else I can help you with right now?")) ∧
      ∃ c, (escalate_to_manager paramsEscalate convOne dbBase (some "twilio down") 40).2.conversations.find?
            (fun x => x.id == convOne.id) = some c ∧
        c.status = ConversationStatus.escalated ∧
        c.escalated_to_manager = true :=
  escalate_to_manager_contract paramsEscalate convOne dbBase (some "twilio down") 40
    "Alice" "+46700000001" "Do you offer corporate memberships?" "+46700000099"
    clubOne rfl rfl rfl rfl rfl rfl (List.mem_singleton.mpr rfl)

/-! ## C9: phone-booking creation -/

/-- The confirmation-SMS step never touches the bookings table (it only
appends a notification, or raises before doing anything). -/
theorem send_booking_confirmation_bookings (db : DB) (booking_id : Nat)
    (sms_error : Option String) (now : Int) :
    (send_booking_confirmation db booking_id sms_error now).2.bookings = db.bookings := by
  unfold send_booking_confirmation
  cases h1 : db.bookings.find? (fun b => b.id == booking_id) with
  | none => rfl
  | some booking =>
    cases h2 : db.clubs.find? (fun c => c.id == booking.club_id) with
    | none => simp only [h2]
    | some club => simp only [h2]

/-- Claim C9: a `create_booking` function call with an activity and a single
`booking_time` stores a pending booking whose resource name comes from the
fixed activity table (tennis/padel/gym mapped to their court names, anything
else title-cased verbatim), whose end time is exactly one hour after its
start time, and reports the confirmation code; an unparsable `booking_date`
instead yields an `error` payload and leaves the store unchanged. -/
theorem create_booking_from_call_contract (parameters : FnParams)
    (conv : Conversation) (db : DB) (now : Int) (sms_error : Option String)
    (bd bt cn cp act : String) (dv sv : Int)
    (hbd : parameters.booking_date = some bd)
    (hdv : fromisoformat bd = some dv)
    (hbt : parameters.booking_time = some bt)
    (hsv : fromisoformat (bd ++ "T" ++ bt) = some sv)
    (hact : parameters.activity = some act)
    (hcn : parameters.customer_name = some cn)
    (hcp : parameters.customer_phone = some cp) :
    (∃ b db2,
      create_booking_from_call parameters conv db now sms_error =
        (FnResult.result ("Booking created! Confirmation code: " ++
          b.confirmation_code ++ ". You\x27ll receive an SMS confirmation shortly."),
         db2) ∧
      db2.bookings = db.bookings ++ [b] ∧
      b.resource_name = resource_name_for act ∧
      b.status = BookingStatus.pending ∧
      b.start_time = sv ∧
      b.end_time = sv + 60 ∧
      b.booking_date = dv ∧
      b.club_id = conv.club_id ∧
      b.conversation_id = some conv.id) ∧
    resource_name_for "tennis" = "Tennis Court" ∧
    resource_name_for "padel" = "Padel Court" ∧
    resource_name_for "gym" = "Gym Session" ∧
    (∀ a : String, pyLower a ≠ "tennis" → pyLower a ≠ "padel" → pyLower a ≠ "gym" →
      resource_name_for a = pyTitle a) ∧
    (∀ ps : FnParams, ∀ bad, ps.booking_date = some bad → fromisoformat bad = none →
      ∃ e, create_booking_from_call ps conv db now sms_error =
        (FnResult.error e, db)) := by
  refine ⟨?_, rfl, rfl, rfl, ?_, ?_⟩
  · unfold create_booking_from_call
    simp only [hbd, hdv, hbt, hsv, hact, hcn, hcp]
    refine ⟨{
        id := db.next_id
        club_id := conv.club_id
        customer_id := conv.customer_id
        conversation_id := some conv.id
        booking_type := BookingType.court
        status := BookingStatus.pending
        resource_name := resource_name_for act
        description := none
        booking_date := dv
        start_time := sv
        end_time := sv + 60
        duration_minutes := none
        price := none
        currency := "SEK"
        payment_status := none
        contact_name := cn
        contact_phone := cp
        contact_email := parameters.customer_email
        notes := parameters.notes
        special_requests := none
        matchi_booking_id := none
        confirmation_code := "BK" ++ toString now
        confirmation_sent_at := none
        cancellation_reason := none
        cancelled_at := none
        cancelled_by := none },
      _, rfl, send_booking_confirmation_bookings _ _ _ _, rfl, rfl, rfl, rfl,
      rfl, rfl, rfl⟩
  · intro a h1 h2 h3
    have e1 : (pyLower a == "tennis") = false := beq_eq_false_iff_ne.mpr h1
    have e2 : (pyLower a == "padel") = false := beq_eq_false_iff_ne.mpr h2
    have e3 : (pyLower a == "gym") = false := beq_eq_false_iff_ne.mpr h3
    simp only [resource_name_for, e1, e2, e3, Bool.false_eq_true, if_false]
  · intro ps bad hpsbd hbad
    unfold create_booking_from_call
    simp only [hpsbd, hbad]
    exact ⟨_, rfl⟩

/-- A `create_booking` function call for padel on 2025-06-02 at 09:00. -/
def paramsPadelNine : FnParams :=
  { FnParams.empty with
    activity := some "padel"
    booking_date := some "2025-06-02"
    booking_time := some "09:00"
    customer_name := some "Alice"
    customer_phone := some "+46700000001" }

/-- Witness for C9 at a concrete input (the happy-path clause). -/
theorem create_booking_from_call_contract_witness :
    ∃ b db2,
      create_booking_from_call paramsPadelNine convOne dbBase 100 none =
        (FnResult.result ("Booking created! Confirmation code: " ++
          b.confirmation_code ++ ". You\x27ll receive an SMS confirmation shortly."),
         db2) ∧
      db2.bookings = dbBase.bookings ++ [b] ∧
      b.resource_name = resource_name_for "padel" ∧
      b.status = BookingStatus.pending ∧
      b.start_time = (fromisoformat "2025-06-02T09:00").getD 0 ∧
      b.end_time = (fromisoformat "2025-06-02T09:00").getD 0 + 60 ∧
      b.booking_date = (fromisoformat "2025-06-02").getD 0 ∧
      b.club_id = convOne.club_id ∧
      b.conversation_id = some convOne.id :=
  (create_booking_from_call_contract paramsPadelNine convOne dbBase 100 none
    "2025-06-02" "09:00" "Alice" "+46700000001" "padel"
    ((fromisoformat "2025-06-02").getD 0) ((fromisoformat "2025-06-02T09:00").getD 0)
    rfl rfl rfl rfl rfl rfl rfl).1

/-! ## C10: call-start validation failures -/

/-- A call-start payload whose `call` object carries an id but a null
`customer` object (so the payload has no caller phone number). -/
def callStartNoCustomer : VAPIWebhookPayload :=
  { type := "call-start"
    call := some
      { id := "call-nc"
        assistantId := some "asst1"
        customer := none
        duration := none
        cost := none
        endedReason := none }
    message := none
    functionCall := none }

/-- Claim C10 counterexample: a call-start event lacking a caller phone
number because its `customer` object is null does not produce the claimed
200-acknowledged error body — the handler raises `AttributeError` and the
webhook answers 500 (though indeed no row is created). -/
theorem handle_call_start_crashes_without_customer :
    (handle_call_start callStartNoCustomer dbBase 0).1 = Except.error PyExn.attributeError ∧
    (vapi_webhook "development" true (ReqBody.jsonPayload callStartNoCustomer) dbBase 0 none).1.status_code
      = 500 ∧
    (handle_call_start callStartNoCustomer dbBase 0).2 = dbBase := by
  refine ⟨rfl, rfl, rfl⟩

/-- Claim C10 (amended): provided the call-start payload carries both a
`call` object and a `customer` object, the validation failures behave as
claimed: a falsy call id yields the 200-acknowledged body
`status=error, message=Missing call ID`; a truthy call id with a falsy
number yields `Missing phone number`; a truthy id and number whose assistant
id resolves to no club yields `Club not found`; in each case the store is
unchanged (no Customer and no Conversation row).  When the `call` or
`customer` object is null instead, the handler raises `AttributeError`
(HTTP 500) — also without creating any row. -/
theorem handle_call_start_validation (data : VAPIWebhookPayload) (db : DB)
    (now : Int) (call : CallInfo) (cust : CustomerInfo)
    (hcall : data.call = some call)
    (hcust : call.customer = some cust) :
    ((call.id == "") = true →
      handle_call_start data db now =
        (Except.ok (WebhookBody.ack "error" (some "Missing call ID")), db)) ∧
    ((call.id == "") = false → pyFalsy cust.number = true →
      handle_call_start data db now =
        (Except.ok (WebhookBody.ack "error" (some "Missing phone number")), db)) ∧
    ((call.id == "") = false → pyFalsy cust.number = false →
      (match call.assistantId with
       | some aid =>
         if aid != "" then db.clubs.find? (fun c => c.ai_assistant_id == some aid)
         else none
       | none => (none : Option Club)) = none →
      handle_call_start data db now =
        (Except.ok (WebhookBody.ack "error" (some "Club not found")), db)) := by
  unfold handle_call_start
  simp only [hcall, hcust]
  refine ⟨?_, ?_, ?_⟩
  · intro h
    simp only [h, if_true]
  · intro h hf
    simp only [h, Bool.false_eq_true, if_false, hf, if_true]
  · intro h hf hclub
    simp only [h, Bool.false_eq_true, if_false, hf, hclub]

/-- A call-start payload whose assistant id matches no club. -/
def callStartNoClub : VAPIWebhookPayload :=
  { type := "call-start"
    call := some
      { id := "call-nb"
        assistantId := some "asst-unknown"
        customer := some { number := some "+46700000055" }
        duration := none
        cost := none
        endedReason := none }
    message := none
    functionCall := none }

/-- Witness for the amended C10 theorem: the unresolvable-assistant clause at
a concrete input. -/
theorem handle_call_start_validation_witness :
    handle_call_start callStartNoClub dbBase 33 =
      (Except.ok (WebhookBody.ack "error" (some "Club not found")), dbBase) :=
  (handle_call_start_validation callStartNoClub dbBase 33
    { id := "call-nb", assistantId := some "asst-unknown",
      customer := some { number := some "+46700000055" }, duration := none,
      cost := none, endedReason := none }
    { number := some "+46700000055" } rfl rfl).2.2 rfl rfl rfl

end SportClub
